import Mathlib

/-!
Verification development for the pico-rust BUTTONS-LEDS program
(`src/main.rs`): four buttons (P, N, R, D), each with a dedicated
button-reader task, a dedicated LED-actuator task and a dedicated
bounded channel between them.  Pure definitions below are shallow
embeddings of the corresponding Rust items; a few components that live
outside `src/` (the `debounce` crate, the event classifier of the
single-button sibling programs, the channel primitive) are modelled
from the specification and say so in their doc comments.
-/

namespace PicoButtons

/-- `enum LedStatus { On, Off }` from main.rs. -/
inductive LedStatus where
  | On : LedStatus
  | Off : LedStatus
deriving DecidableEq, Repr

/-- `enum Button { P, N, R, D }` from main.rs. -/
inductive Button where
  | P : Button
  | N : Button
  | R : Button
  | D : Button
deriving DecidableEq, Repr

/-- `embassy_rp::gpio::Level` as used by main.rs (`Level::Low` at init,
`set_high` / `set_low` in `set_led`). -/
inductive Level where
  | low : Level
  | high : Level
deriving DecidableEq, Repr

/-- The command block of `read_button` (main.rs lines 86-111): for the
pressed button, send `On` on its own channel and `Off` on the three
others, always issuing the four sends in the fixed textual order
CHANNEL_P, CHANNEL_N, CHANNEL_R, CHANNEL_D. -/
def dispatch (b : Button) : List (Button × LedStatus) :=
  match b with
  | Button.P => [(Button.P, LedStatus.On), (Button.N, LedStatus.Off),
                 (Button.R, LedStatus.Off), (Button.D, LedStatus.Off)]
  | Button.N => [(Button.P, LedStatus.Off), (Button.N, LedStatus.On),
                 (Button.R, LedStatus.Off), (Button.D, LedStatus.Off)]
  | Button.R => [(Button.P, LedStatus.Off), (Button.N, LedStatus.Off),
                 (Button.R, LedStatus.On), (Button.D, LedStatus.Off)]
  | Button.D => [(Button.P, LedStatus.Off), (Button.N, LedStatus.Off),
                 (Button.R, LedStatus.Off), (Button.D, LedStatus.On)]

/-- Write one `(channel, command)` pair into the quiescent per-channel
LED view: the actuator listening on channel `cmd.1` ends up showing
`cmd.2` once it has drained its queue. -/
def applyCmd (leds : Button → LedStatus) (cmd : Button × LedStatus) :
    Button → LedStatus :=
  fun x => if x = cmd.1 then cmd.2 else leds x

/-- Effect of one executed dispatch on the quiescent LED view: the four
commands of `dispatch b`, applied in send order. -/
def applyDispatch (leds : Button → LedStatus) (b : Button) :
    Button → LedStatus :=
  (dispatch b).foldl applyCmd leds

/-- Position of a `read_button` task inside its infinite loop, indexed
by which of the loop's three `btn.debounce().await` calls it is
suspended on: the first (comment `// button pressed`), the second
(comment: the debounce "will detect when it's been RELEASED"), or the
third (comment `// wait for button release before handling another
press`).  The dispatch block runs between the second and the third. -/
inductive TaskPhase where
  | beforeFirst : TaskPhase
  | beforeSecond : TaskPhase
  | beforeThird : TaskPhase
deriving DecidableEq, Repr

/-- Quiescent-level system state: the phase of each button's reader
task, the LED each actuator shows once its channel is drained, and the
list of executed dispatches in order of execution. -/
structure SysState where
  mk ::
  phase : Button → TaskPhase
  leds : Button → LedStatus
  dispatched : List Button

/-- At startup every reader task is suspended on its first
`debounce().await` and every actuator LED is low (`Output::new(led_pin,
Level::Low)`); no dispatch has been executed. -/
def initSys : SysState :=
  SysState.mk (fun _ => TaskPhase.beforeFirst) (fun _ => LedStatus.Off) []

/-- One confirmed debounced transition arrives on button `b`'s line and
is consumed by `b`'s reader task.  The debouncer (the `debounce` crate,
outside src/; per spec section 4.1 each `debounce()` call returns once
per confirmed level change) resumes whichever of the three awaits the
task is suspended on; the loop body between the second and third await
executes the dispatch block.  The transition's level is not inspected:
the source matches it with a wildcard. -/
def sysStep (s : SysState) (b : Button) : SysState :=
  match s.phase b with
  | TaskPhase.beforeFirst =>
      SysState.mk (fun x => if x = b then TaskPhase.beforeSecond else s.phase x)
        s.leds s.dispatched
  | TaskPhase.beforeSecond =>
      SysState.mk (fun x => if x = b then TaskPhase.beforeThird else s.phase x)
        (applyDispatch s.leds b) (s.dispatched ++ [b])
  | TaskPhase.beforeThird =>
      SysState.mk (fun x => if x = b then TaskPhase.beforeFirst else s.phase x)
        s.leds s.dispatched

/-- Run the system over a sequence of confirmed transitions, listed by
the button they occur on, in global time order. -/
def sysRun (s : SysState) : List Button → SysState
  | [] => s
  | b :: rest => sysRun (sysStep s b) rest

/-- The presses within a transition sequence: a confirmed transition on
`b` is a press exactly when `b`'s line was at its resting level, i.e.
when the number of earlier transitions on `b` is even (confirmed levels
strictly alternate and the line idles High with `Pull::Up`).  `cnt`
carries the number of transitions already seen per button. -/
def pressesAux (cnt : Button → Nat) : List Button → List Button
  | [] => []
  | b :: rest =>
      if cnt b % 2 = 0 then
        b :: pressesAux (fun x => if x = b then cnt x + 1 else cnt x) rest
      else
        pressesAux (fun x => if x = b then cnt x + 1 else cnt x) rest

/-- The presses of a transition sequence, oldest first. -/
def presses (evs : List Button) : List Button :=
  pressesAux (fun _ => 0) evs

/-- The most recently pressed button of a transition sequence. -/
def lastPressed (evs : List Button) : Option Button :=
  (presses evs).getLast?

/-- Every button's press/release cycles are complete: each line has
seen an even number of confirmed transitions, so every press has been
followed by its release. -/
def completedCycles (evs : List Button) : Bool :=
  [Button.P, Button.N, Button.R, Button.D].all
    (fun b => evs.count b % 2 == 0)

/-- Transition sequence: a complete press/release cycle on P, then one
on N, then another one on P. -/
def evsPNP : List Button :=
  [Button.P, Button.P, Button.N, Button.N, Button.P, Button.P]

/-- How a received command drives the output pin in `set_led`:
`Ok(LedStatus::On) => led.set_high()`, `Ok(LedStatus::Off) =>
led.set_low()`. -/
def driveFor (c : LedStatus) : Level :=
  match c with
  | LedStatus.On => Level.high
  | LedStatus.Off => Level.low

/-- One iteration of the `set_led` loop, on the task's channel queue
and current output level.  Returns the new queue, the new output level
and the milliseconds the iteration waited: a queued command is consumed
immediately (`try_receive` succeeds, the pin is driven, no wait); on an
empty queue `try_receive` fails and the task waits
`Timer::after_millis(250)`. -/
def setLedStep (q : List LedStatus) (led : Level) :
    List LedStatus × Level × Nat :=
  match q with
  | [] => ([], led, 250)
  | c :: rest => (rest, driveFor c, 0)

/-- `n` iterations of the `set_led` loop, accumulating the waited
milliseconds. -/
def setLedRun (n : Nat) (q : List LedStatus) (led : Level) :
    List LedStatus × Level × Nat :=
  match n with
  | 0 => (q, led, 0)
  | Nat.succ m =>
      match setLedStep q led with
      | (q1, l1, d1) =>
          match setLedRun m q1 l1 with
          | (q2, l2, d2) => (q2, l2, d1 + d2)

/-- Initial output level of every actuator: `set_led` starts with
`Output::new(led_pin, Level::Low)` before entering its loop, for each
of the four spawned instances. -/
def initialLeds : Button → Level :=
  fun _ => Level.low

/-- Buffer capacity of the four static channels: each is declared
`Channel<ThreadModeRawMutex, LedStatus, 64>` in main.rs. -/
def channelCap : Nat := 64

/-- Capacity of the channel serving button `b`'s actuator (CHANNEL_P,
CHANNEL_N, CHANNEL_R, CHANNEL_D): all four are declared with capacity
64. -/
def channelCapOf : Button → Nat :=
  fun _ => channelCap

/-- Modelled from the spec: the channel primitive is the external
embassy_sync library, specified at the interface boundary in spec
section 6 as a bounded FIFO queue with blocking send.  `chSend` returns
the new queue, or `none` when the queue is full, meaning the producer
suspends until space is available; nothing is dropped. -/
def chSend (q : List LedStatus) (c : LedStatus) : Option (List LedStatus) :=
  if q.length < channelCap then some (q ++ [c]) else none

/-- Modelled from the spec: receiving from the bounded FIFO channel
yields the oldest queued command, or `none` on an empty queue. -/
def chRecv (q : List LedStatus) : Option (LedStatus × List LedStatus) :=
  match q with
  | [] => none
  | c :: rest => some (c, rest)

/-- Send a whole list of commands in order; `none` if any send found
the queue full. -/
def chSendAll (q : List LedStatus) : List LedStatus → Option (List LedStatus)
  | [] => some q
  | c :: cs =>
      match chSend q c with
      | none => none
      | some q1 => chSendAll q1 cs

/-- Receive up to `n` commands, in the order the channel yields them. -/
def chDrainFuel (n : Nat) (q : List LedStatus) : List LedStatus :=
  match n with
  | 0 => []
  | Nat.succ m =>
      match chRecv q with
      | none => []
      | some (c, rest) => c :: chDrainFuel m rest

/-- The debounce window handed to `Debouncer::new` in `read_button`:
`Duration::from_millis(20)`, written once in the task body, so every
button's debouncer gets the same 20 ms window. -/
def debounceWindowMsOf : Button → Nat :=
  fun _ => 20

/-- Lower threshold of the event classifier, from spec section 6:
`shortThresholdMs: 1000`. -/
def shortThresholdMs : Nat := 1000

/-- Upper threshold of the event classifier, from spec section 6:
`longThresholdMs: 5000`. -/
def longThresholdMs : Nat := 5000

/-- Modelled from the spec: the events the EventClassifier of the
single-button sibling programs can emit (spec section 4.2); those
programs are not under src/.  `held` and `released` are in-flight
markers; `shortPress`, `mediumPress` and `longHeld` are the duration
buckets. -/
inductive ClassifierEmission where
  | held : ClassifierEmission
  | shortPress : ClassifierEmission
  | mediumPress : ClassifierEmission
  | longHeld : ClassifierEmission
  | released : ClassifierEmission
deriving DecidableEq, Repr

/-- Modelled from the spec: the cascading deadline race of spec section
4.2 for a press released after `d` milliseconds.  Release before the
1000 ms deadline emits ShortPress; otherwise Held is emitted at the
deadline, then release before the 5000 ms deadline emits MediumPress;
otherwise LongHeld is emitted at that deadline and Released once the
release finally arrives. -/
def emissions (d : Nat) : List ClassifierEmission :=
  if d < shortThresholdMs then
    [ClassifierEmission.shortPress]
  else if d < longThresholdMs then
    [ClassifierEmission.held, ClassifierEmission.mediumPress]
  else
    [ClassifierEmission.held, ClassifierEmission.longHeld,
     ClassifierEmission.released]

/-- Whether an emission is one of the three duration buckets. -/
def isBucket (e : ClassifierEmission) : Bool :=
  match e with
  | ClassifierEmission.shortPress => true
  | ClassifierEmission.mediumPress => true
  | ClassifierEmission.longHeld => true
  | _ => false

/-- Outcome of `spawner.spawn(...)`: `Ok` or `Err(SpawnError)`. -/
inductive SpawnResult where
  | ok : SpawnResult
  | err : SpawnResult
deriving DecidableEq, Repr

/-- `.unwrap()` on a spawn result: `none` models the panic, which on
this target halts the system. -/
def unwrapSpawn (r : SpawnResult) : Option Unit :=
  match r with
  | SpawnResult.ok => some ()
  | SpawnResult.err => none

/-- The spawn sequence of `main`: the four `read_button` tasks are
spawned in order P, N, R, D, each result unwrapped immediately, so the
first failure halts the system before anything later runs. -/
def mainStartup (rP rN rR rD : SpawnResult) : Option Unit :=
  match unwrapSpawn rP with
  | none => none
  | some _ =>
      match unwrapSpawn rN with
      | none => none
      | some _ =>
          match unwrapSpawn rR with
          | none => none
          | some _ => unwrapSpawn rD

/-- The spawn inside `read_button`: `spawner.spawn(set_led(receiver,
led_pin)).unwrap()` before the task's loop. -/
def readButtonInit (r : SpawnResult) : Option Unit :=
  unwrapSpawn r

/-- With an empty channel every `set_led` iteration is an idle wait of
250 ms and the output level never moves. -/
theorem setLedRun_nil (n : Nat) (led : Level) :
    setLedRun n [] led = ([], led, 250 * n) := by
  induction n with
  | zero => rfl
  | succ m ih =>
      simp [setLedRun, setLedStep, ih]
      omega

/-- Sending a list of commands one by one succeeds and appends them in
order, as long as the queue stays within the channel capacity. -/
theorem chSendAll_within_cap (cs : List LedStatus) :
    ∀ q : List LedStatus, (q ++ cs).length ≤ channelCap →
      chSendAll q cs = some (q ++ cs) := by
  induction cs with
  | nil => intro q _; simp [chSendAll]
  | cons c cs ih =>
      intro q h
      have hlen : q.length + (cs.length + 1) ≤ channelCap := by
        simpa [List.length_append] using h
      have hlt : q.length < channelCap := by omega
      have h2 : ((q ++ [c]) ++ cs).length ≤ channelCap := by
        simp [List.length_append]
        omega
      calc chSendAll q (c :: cs) = chSendAll (q ++ [c]) cs := by
            simp [chSendAll, chSend, if_pos hlt]
        _ = some ((q ++ [c]) ++ cs) := ih (q ++ [c]) h2
        _ = some (q ++ c :: cs) := by simp

/-- Draining as many commands as were queued returns exactly the queue,
oldest first. -/
theorem chDrainFuel_self (cs : List LedStatus) :
    chDrainFuel cs.length cs = cs := by
  induction cs with
  | nil => rfl
  | cons c cs ih => simp [chDrainFuel, chRecv, ih]

/-- C1: the exclusive-select invariant fails on the code.  After the
completed press/release cycles P, N, P the most recently pressed button
is P, yet the quiescent LED state has N On and P Off: P's second press
was consumed by the stray third `debounce().await` of `read_button`
(whose comment claims it waits for a release), so it triggered no
dispatch, and the On actuator does not correspond to the most recently
pressed button. -/
theorem exclusive_select_last_pressed_violated :
    completedCycles evsPNP = true ∧
    lastPressed evsPNP = some Button.P ∧
    (sysRun initSys evsPNP).dispatched = [Button.P, Button.N] ∧
    (sysRun initSys evsPNP).leds Button.P = LedStatus.Off ∧
    (sysRun initSys evsPNP).leds Button.N = LedStatus.On := by
  decide

/-- C2: the press/release re-entrancy discipline fails on the code.
Two completed cycles on one button (four confirmed transitions) yield
only one dispatch, and the second dispatch appears only once a fifth
transition — the third press — has been consumed: the loop's third
`debounce().await` swallows the next press instead of a release, so the
dispatch for a cycle is not confined between that cycle's press and the
acceptance of the next press. -/
theorem reentrancy_dispatch_slip :
    (sysRun initSys [Button.P, Button.P, Button.P, Button.P]).dispatched
      = [Button.P] ∧
    (sysRun initSys
        [Button.P, Button.P, Button.P, Button.P, Button.P]).dispatched
      = [Button.P, Button.P] ∧
    (presses [Button.P, Button.P, Button.P, Button.P, Button.P]).length = 3 := by
  decide

/-- C3: "every press event dispatches On to its own channel and Off to
the others" fails on the code.  Two presses of P (both cycles
completed) produce a single dispatch, i.e. four commands in total where
the claim requires four per press: P's second press triggers no send at
all. -/
theorem press_without_dispatch :
    (presses [Button.P, Button.P, Button.P, Button.P]).length = 2 ∧
    (sysRun initSys [Button.P, Button.P, Button.P, Button.P]).dispatched.length
      = 1 ∧
    ((sysRun initSys [Button.P, Button.P, Button.P, Button.P]).dispatched.map
        dispatch).flatten.length = 4 := by
  decide

/-- C4: for a press released after `d` milliseconds the classifier
emits exactly one duration bucket, and it is the bucket whose range
contains `d`: below 1000 ms ShortPress, strictly between the 1000 ms
and 5000 ms thresholds MediumPress, above 5000 ms LongHeld. -/
theorem classifier_buckets (d : Nat) :
    (d < shortThresholdMs →
      (emissions d).filter isBucket = [ClassifierEmission.shortPress]) ∧
    (shortThresholdMs < d ∧ d < longThresholdMs →
      (emissions d).filter isBucket = [ClassifierEmission.mediumPress]) ∧
    (longThresholdMs < d →
      (emissions d).filter isBucket = [ClassifierEmission.longHeld]) := by
  have hv : shortThresholdMs ≤ longThresholdMs := by decide
  refine ⟨fun h => ?_, fun h => ?_, fun h => ?_⟩
  · simp only [emissions, if_pos h]
    rfl
  · obtain ⟨h1, h2⟩ := h
    have hn : ¬ d < shortThresholdMs := by omega
    simp only [emissions, if_neg hn, if_pos h2]
    rfl
  · have hn1 : ¬ d < shortThresholdMs := by omega
    have hn2 : ¬ d < longThresholdMs := by omega
    simp only [emissions, if_neg hn1, if_neg hn2]
    rfl

/-- Witness for C4 at the spec's own examples d = 400, 1200, 6000. -/
theorem classifier_buckets_witness :
    (emissions 400).filter isBucket = [ClassifierEmission.shortPress] ∧
    (emissions 1200).filter isBucket = [ClassifierEmission.mediumPress] ∧
    (emissions 6000).filter isBucket = [ClassifierEmission.longHeld] :=
  ⟨(classifier_buckets 400).1 (by decide),
   (classifier_buckets 1200).2.1 ⟨by decide, by decide⟩,
   (classifier_buckets 6000).2.2 (by decide)⟩

/-- Counterexample to C5's parenthetical: with two commands queued, two
consecutive `set_led` iterations consume both while waiting 0 ms in
total — the 250 ms quiescent wait does not separate consecutively
processed commands, it only happens when the channel is empty. -/
theorem actuator_no_gap_between_queued :
    (setLedRun 2 [LedStatus.On, LedStatus.Off] Level.low).1 = [] ∧
    (setLedRun 2 [LedStatus.On, LedStatus.Off] Level.low).2.2 < 250 := by
  decide

/-- C5 (amended): the actuator loop consumes any available command at
once, driving the pin high on On and low on Off, and waits the fixed
250 ms period only on an empty channel: running at least as many
iterations as there are queued commands drains the queue in order,
leaves the pin at the level of the last command (or unchanged if there
was none), and accumulates exactly 250 ms per idle iteration and
nothing between the queued commands. -/
theorem actuator_loop_drains (q : List LedStatus) (led : Level) (n : Nat)
    (h : q.length ≤ n) :
    setLedRun n q led
      = ([], q.foldl (fun _ c => driveFor c) led, 250 * (n - q.length)) := by
  induction q generalizing led n with
  | nil => simpa using setLedRun_nil n led
  | cons c rest ih =>
      cases n with
      | zero => simp at h
      | succ m =>
          have hm : rest.length ≤ m := by
            simpa using h
          simp [setLedRun, setLedStep, ih (driveFor c) m hm, Nat.succ_sub_succ]

/-- Witness for C5: three iterations on the queue [On, Off] drain both
commands, end low, and wait 250 ms for the single idle iteration. -/
theorem actuator_loop_drains_witness :
    setLedRun 3 [LedStatus.On, LedStatus.Off] Level.low
      = ([], [LedStatus.On, LedStatus.Off].foldl (fun _ c => driveFor c) Level.low,
         250 * (3 - [LedStatus.On, LedStatus.Off].length)) :=
  actuator_loop_drains [LedStatus.On, LedStatus.Off] Level.low 3 (by decide)

/-- C6: every actuator channel has capacity 64; a send to a non-full
channel appends the command (nothing is dropped), a send to a full
channel returns no queue (the producer suspends), and any batch of at
most 64 commands sent to an empty channel is received back exactly in
send order. -/
theorem channel_bounded_fifo :
    (∀ b : Button, channelCapOf b = 64) ∧
    (∀ (q : List LedStatus) (c : LedStatus),
      q.length < channelCap → chSend q c = some (q ++ [c])) ∧
    (∀ (q : List LedStatus) (c : LedStatus),
      channelCap ≤ q.length → chSend q c = none) ∧
    (∀ cs : List LedStatus, cs.length ≤ channelCap →
      chSendAll [] cs = some cs ∧ chDrainFuel cs.length cs = cs) := by
  refine ⟨fun _ => rfl, fun q c h => by simp [chSend, if_pos h],
    fun q c h => by simp [chSend, if_neg (Nat.not_lt.mpr h)],
    fun cs h => ⟨?_, chDrainFuel_self cs⟩⟩
  simpa using chSendAll_within_cap cs [] (by simpa using h)

/-- Witness for C6: a send to an empty channel, a send to a channel
already holding 64 commands, and a two-command FIFO round trip. -/
theorem channel_bounded_fifo_witness :
    chSend [] LedStatus.On = some [LedStatus.On] ∧
    chSend (List.replicate 64 LedStatus.Off) LedStatus.On = none ∧
    (chSendAll [] [LedStatus.On, LedStatus.Off]
        = some [LedStatus.On, LedStatus.Off] ∧
      chDrainFuel ([LedStatus.On, LedStatus.Off]).length
          [LedStatus.On, LedStatus.Off]
        = [LedStatus.On, LedStatus.Off]) :=
  ⟨channel_bounded_fifo.2.1 [] LedStatus.On (by decide),
   channel_bounded_fifo.2.2.1 (List.replicate 64 LedStatus.Off) LedStatus.On
     (by decide),
   channel_bounded_fifo.2.2.2 [LedStatus.On, LedStatus.Off] (by decide)⟩

/-- C7: before any press, the system state is deterministic with every
actuator Off: each `set_led` instance constructs its output at
`Level::Low`, and however many loop iterations run on a still-empty
channel, the output stays low. -/
theorem initial_state_all_off :
    (∀ b : Button, initialLeds b = Level.low) ∧
    (∀ n : Nat, (setLedRun n [] Level.low).2.1 = Level.low) := by
  refine ⟨fun _ => rfl, fun n => ?_⟩
  rw [setLedRun_nil]

/-- C8: the debounce window is the fixed constant 20 ms, inside the
specified 10-20 ms range, and the same window is used for every one of
the four button debouncers. -/
theorem debounce_window_constant :
    (∀ b : Button, debounceWindowMsOf b = 20) ∧
    (∀ b : Button, 10 ≤ debounceWindowMsOf b ∧ debounceWindowMsOf b ≤ 20) ∧
    (∀ b b' : Button, debounceWindowMsOf b = debounceWindowMsOf b') :=
  ⟨fun _ => rfl, fun b => by cases b <;> exact ⟨by decide, by decide⟩,
   fun _ _ => rfl⟩

/-- C9: startup halts exactly when some required task spawn fails: a
failing spawn of any of the four `read_button` tasks, or of a button's
`set_led` task, is unwrapped into an unrecoverable halt, and when every
spawn succeeds startup completes normally — no spawn failure is
propagated as a recoverable error. -/
theorem spawn_failure_halts :
    (∀ rP rN rR rD : SpawnResult,
      mainStartup rP rN rR rD = none ↔
        (rP = SpawnResult.err ∨ rN = SpawnResult.err ∨
         rR = SpawnResult.err ∨ rD = SpawnResult.err)) ∧
    (∀ r : SpawnResult, readButtonInit r = none ↔ r = SpawnResult.err) ∧
    mainStartup SpawnResult.ok SpawnResult.ok SpawnResult.ok SpawnResult.ok
      = some () := by
  refine ⟨fun rP rN rR rD => ?_, fun r => ?_, rfl⟩
  · cases rP <;> cases rN <;> cases rR <;> cases rD <;> decide
  · cases r <;> decide

/-- Counterexample to C10 as stated: two completed press/release cycles
on P yield four sent commands in total, not the eight (four per cycle)
the claim requires — the second cycle produced no dispatch. -/
theorem dispatch_per_cycle_cex :
    completedCycles [Button.P, Button.P, Button.P, Button.P] = true ∧
    ((sysRun initSys [Button.P, Button.P, Button.P, Button.P]).dispatched.map
        dispatch).flatten.length ≠ 2 * 4 := by
  decide

/-- C10 (amended): every dispatch that the button task does execute
sends exactly four commands, one per channel, always in the fixed
channel order P, N, R, D regardless of which button dispatches, with On
exactly at the dispatching button's own channel; dispatches however
occur once per three consumed transitions, not once per cycle. -/
theorem dispatch_fixed_order (b : Button) :
    (dispatch b).map Prod.fst = [Button.P, Button.N, Button.R, Button.D] ∧
    (dispatch b).length = 4 ∧
    (∀ x : Button, ((x, LedStatus.On) ∈ dispatch b ↔ x = b)) := by
  cases b <;> exact ⟨rfl, rfl, by intro x; cases x <;> decide⟩

/-- Witness for C10's amended theorem at the buttons P and N. -/
theorem dispatch_fixed_order_witness :
    ((Button.P, LedStatus.On) ∈ dispatch Button.P ↔ Button.P = Button.P) ∧
    (dispatch Button.N).map Prod.fst
      = [Button.P, Button.N, Button.R, Button.D] :=
  ⟨(dispatch_fixed_order Button.P).2.2 Button.P,
   (dispatch_fixed_order Button.N).1⟩

end PicoButtons
